import Mathlib

set_option autoImplicit false

namespace AgentTemplate

/-- Role of a conversational statement (src/agent_template/_type/statement.py, class Role). -/
inductive Role where
  | user
  | assistant
  | system
deriving DecidableEq

/-- One conversational statement (src/agent_template/_type/statement.py, class Statement).
`whose` is the optional identity tag used only in multi-agent perspective rendering. -/
structure Statement where
  role : Role
  content : String
  whose : Option String := none
deriving DecidableEq

/-- One entry of a conversation history: a `Statement` or an opaque provider object.
The two provider-object shapes actually stored are the OpenAI function-call item appended
in `OpenAILLM.chat_with_history_tools` and the function-call-output dict appended in
`OpenAILLM.set_tool_result` (src/agent_template/llm/openai_llm.py). -/
inductive Entry where
  | stmt (s : Statement)
  | toolCall (name callId arguments : String)
  | toolOutput (callId toolName : Option String) (output : String)
deriving DecidableEq

/-- Content kind of a projected block: `input_text` or `output_text`. -/
inductive ContentKind where
  | inputText
  | outputText
deriving DecidableEq

/-- One content block of a projected message. -/
structure Block where
  kind : ContentKind
  text : String
deriving DecidableEq

/-- One element of the provider-facing projection produced by `get_content`:
either a role-tagged message or a provider object passed through unchanged. -/
inductive Projected where
  | message (role : Role) (content : List Block)
  | passthrough (e : Entry)
deriving DecidableEq

/-- Python `str` of an optional string: `str(None)` is the text `None`. -/
def pyStrOfOptStr : Option String → String
  | some s => s
  | none => "None"

/-- Plain projection of one statement (src/agent_template/_type/history.py,
`History.get_content`): roles `user` and `system` map to `input_text`,
`assistant` maps to `output_text`. -/
def Statement.projectPlain (s : Statement) : Projected :=
  match s.role with
  | Role.user => Projected.message s.role [⟨ContentKind.inputText, s.content⟩]
  | Role.system => Projected.message s.role [⟨ContentKind.inputText, s.content⟩]
  | Role.assistant => Projected.message s.role [⟨ContentKind.outputText, s.content⟩]

/-- Conversation history of a single agent (src/agent_template/_type/history.py). -/
structure History where
  content : List Entry
deriving DecidableEq

/-- Model projection of a plain history (`History.get_content`). -/
def History.getContent (h : History) : List Projected :=
  h.content.map (fun e =>
    match e with
    | Entry.stmt s => Statement.projectPlain s
    | e => Projected.passthrough e)

/-- Session history shared between several agents
(src/agent_template/_type/session_history.py, class SessionHistory). -/
structure SessionHistory where
  content : List Entry
  whose : String
  purpose : Option String := none
  participantProfile : Option (List (String × String)) := none
deriving DecidableEq

/-- Python repr of an optional string-to-string dict, used inside the synthesized
session system prompt. -/
def pyDictReprOptStr : Option (List (String × String)) → String
  | none => "None"
  | some xs =>
      "\x7b" ++ String.intercalate ", "
        (xs.map (fun p => "\x27" ++ p.1 ++ "\x27: \x27" ++ p.2 ++ "\x27")) ++ "\x7d"

/-- Text of the synthesized session system prompt
(`SessionHistory._get_session_system_prompt`). -/
def SessionHistory.sessionPromptText (h : SessionHistory) : String :=
  "You are participating in a discussion session. Your name is " ++ h.whose ++ ". \n"
    ++ "The purpose of this session is:\n" ++ pyStrOfOptStr h.purpose
    ++ "\n\n The profiles of the participants are as follows: "
    ++ pyDictReprOptStr h.participantProfile ++ ".\n\n"

/-- The synthesized session system prompt prepended by `SessionHistory.get_content`. -/
def SessionHistory.sessionSystemPrompt (h : SessionHistory) : Projected :=
  Projected.message Role.system [⟨ContentKind.inputText, h.sessionPromptText⟩]

/-- Perspective projection of one stored statement, as done inside
`SessionHistory.get_content`: an own statement keeps its role and gets content kind
`input_text` exactly when its role is `system` (otherwise `output_text`); a foreign
`system` statement is omitted; any other foreign statement is re-tagged `user` with
its content prefixed by the originating identity in parentheses. -/
def sessionProjectStmt (whose : String) (s : Statement) : Option Projected :=
  if s.whose = some whose then
    some (Projected.message s.role
      [⟨if s.role = Role.system then ContentKind.inputText else ContentKind.outputText,
        s.content⟩])
  else if s.role = Role.system then
    none
  else
    some (Projected.message Role.user
      [⟨ContentKind.inputText, "(" ++ pyStrOfOptStr s.whose ++ "): " ++ s.content⟩])

/-- Projection of one history entry inside `SessionHistory.get_content`:
statements go through the perspective projection, provider objects pass through. -/
def SessionHistory.entryProject (whose : String) : Entry → Option Projected
  | Entry.stmt s => sessionProjectStmt whose s
  | e => some (Projected.passthrough e)

/-- Model projection of a session history (`SessionHistory.get_content`):
the synthesized session system prompt followed by the perspective projection of
every entry. -/
def SessionHistory.getContent (h : SessionHistory) : List Projected :=
  h.sessionSystemPrompt :: h.content.filterMap (SessionHistory.entryProject h.whose)

/-- Whether an entry is a `Statement` (the `isinstance(item, Statement)` test). -/
def Entry.isStatement : Entry → Bool
  | Entry.stmt _ => true
  | _ => false

/-- `SessionHistory.clean_content`: remove every non-`Statement` entry. -/
def SessionHistory.cleanContent (h : SessionHistory) : SessionHistory :=
  { h with content := h.content.filter Entry.isStatement }

/-- `SessionHistory.is_finished`: clean the content, then finished iff at least 8
entries remain. -/
def SessionHistory.isFinished (h : SessionHistory) : Bool :=
  decide (8 ≤ h.cleanContent.content.length)

/-- C3: for a SessionHistory owned by A, every stored statement tagged with a
different identity is rendered by `get_content` with role `user` and content
prefixed by the originating identity in parentheses, never with role `assistant`;
a foreign `system` statement is omitted from the projection entirely. -/
theorem session_foreign_statement_projection (h : SessionHistory) (s : Statement)
    (_hmem : Entry.stmt s ∈ h.content) (hforeign : s.whose ≠ some h.whose) :
    (s.role = Role.system → SessionHistory.entryProject h.whose (Entry.stmt s) = none)
    ∧ (s.role ≠ Role.system →
        SessionHistory.entryProject h.whose (Entry.stmt s)
          = some (Projected.message Role.user
              [⟨ContentKind.inputText, "(" ++ pyStrOfOptStr s.whose ++ "): " ++ s.content⟩]))
    ∧ (∀ bs, SessionHistory.entryProject h.whose (Entry.stmt s)
          ≠ some (Projected.message Role.assistant bs))
    ∧ SessionHistory.getContent h
        = h.sessionSystemPrompt
            :: h.content.filterMap (SessionHistory.entryProject h.whose) := by
  refine ⟨?_, ?_, ?_, rfl⟩
  · intro hsys
    simp [SessionHistory.entryProject, sessionProjectStmt, hforeign, hsys]
  · intro hns
    simp [SessionHistory.entryProject, sessionProjectStmt, hforeign, hns]
  · intro bs
    by_cases hsys : s.role = Role.system
    · simp [SessionHistory.entryProject, sessionProjectStmt, hforeign, hsys]
    · simp [SessionHistory.entryProject, sessionProjectStmt, hforeign, hsys]

/-- Sample foreign statement used as concrete witness input. -/
def sampleForeignStmt : Statement := ⟨Role.user, "hello", some "B"⟩

/-- Sample session history owned by A holding one statement tagged B. -/
def sampleSessionA : SessionHistory := ⟨[Entry.stmt sampleForeignStmt], "A", none, none⟩

/-- Witness for C3 at a concrete session history. -/
theorem session_foreign_statement_projection_witness :
    (sampleForeignStmt.role = Role.system →
        SessionHistory.entryProject sampleSessionA.whose (Entry.stmt sampleForeignStmt) = none)
    ∧ (sampleForeignStmt.role ≠ Role.system →
        SessionHistory.entryProject sampleSessionA.whose (Entry.stmt sampleForeignStmt)
          = some (Projected.message Role.user
              [⟨ContentKind.inputText,
                "(" ++ pyStrOfOptStr sampleForeignStmt.whose ++ "): "
                  ++ sampleForeignStmt.content⟩]))
    ∧ (∀ bs, SessionHistory.entryProject sampleSessionA.whose (Entry.stmt sampleForeignStmt)
          ≠ some (Projected.message Role.assistant bs))
    ∧ SessionHistory.getContent sampleSessionA
        = sampleSessionA.sessionSystemPrompt
            :: sampleSessionA.content.filterMap
                (SessionHistory.entryProject sampleSessionA.whose) :=
  session_foreign_statement_projection sampleSessionA sampleForeignStmt
    (List.mem_cons_self _ _) (by decide)

/-- Sample statement owned by A with role user. -/
def sampleOwnUser : Statement := ⟨Role.user, "hi", some "A"⟩

/-- Session history owned by A holding one own user statement. -/
def sampleSessionOwn : SessionHistory := ⟨[Entry.stmt sampleOwnUser], "A", none, none⟩

/-- Plain history holding the same single user statement. -/
def sampleHistoryOwn : History := ⟨[Entry.stmt sampleOwnUser]⟩

/-- C4 counterexample: an own statement with role `user` is projected by
`SessionHistory.get_content` with content kind `output_text`, whereas the plain
`History.get_content` projection gives it `input_text`, so the session projection
of an own statement is not always the plain projection. -/
theorem session_own_user_statement_kind_mismatch :
    (SessionHistory.getContent sampleSessionOwn).drop 1
      = [Projected.message Role.user [⟨ContentKind.outputText, "hi"⟩]]
    ∧ History.getContent sampleHistoryOwn
      = [Projected.message Role.user [⟨ContentKind.inputText, "hi"⟩]]
    ∧ (SessionHistory.getContent sampleSessionOwn).drop 1
      ≠ History.getContent sampleHistoryOwn := by
  refine ⟨rfl, rfl, ?_⟩
  decide

/-- C4 amended: an own statement keeps its role, with content kind `input_text`
exactly when its role is `system` and `output_text` otherwise; this agrees with the
plain History projection for roles `system` and `assistant`, while for role `user`
the session projection emits the output kind where plain History emits the input
kind. -/
theorem session_own_statement_projection (h : SessionHistory) (s : Statement)
    (hown : s.whose = some h.whose) :
    sessionProjectStmt h.whose s
      = some (Projected.message s.role
          [⟨if s.role = Role.system then ContentKind.inputText else ContentKind.outputText,
            s.content⟩])
    ∧ (s.role ≠ Role.user → sessionProjectStmt h.whose s = some s.projectPlain)
    ∧ (s.role = Role.user →
        sessionProjectStmt h.whose s
            = some (Projected.message Role.user [⟨ContentKind.outputText, s.content⟩])
          ∧ s.projectPlain = Projected.message Role.user [⟨ContentKind.inputText, s.content⟩])
    ∧ SessionHistory.entryProject h.whose (Entry.stmt s) = sessionProjectStmt h.whose s := by
  refine ⟨?_, ?_, ?_, rfl⟩
  · simp [sessionProjectStmt, hown]
  · intro hnu
    cases hr : s.role with
    | user => exact absurd hr hnu
    | assistant =>
        simp [sessionProjectStmt, Statement.projectPlain, hown, hr]
    | system =>
        simp [sessionProjectStmt, Statement.projectPlain, hown, hr]
  · intro hu
    constructor
    · simp [sessionProjectStmt, hown, hu]
    · simp [Statement.projectPlain, hu]

/-- Witness for the amended C4 at a concrete own user statement. -/
theorem session_own_statement_projection_witness :
    sessionProjectStmt sampleSessionOwn.whose sampleOwnUser
      = some (Projected.message sampleOwnUser.role
          [⟨if sampleOwnUser.role = Role.system then ContentKind.inputText
              else ContentKind.outputText,
            sampleOwnUser.content⟩])
    ∧ (sampleOwnUser.role ≠ Role.user →
        sessionProjectStmt sampleSessionOwn.whose sampleOwnUser
          = some sampleOwnUser.projectPlain)
    ∧ (sampleOwnUser.role = Role.user →
        sessionProjectStmt sampleSessionOwn.whose sampleOwnUser
            = some (Projected.message Role.user
                [⟨ContentKind.outputText, sampleOwnUser.content⟩])
          ∧ sampleOwnUser.projectPlain
            = Projected.message Role.user [⟨ContentKind.inputText, sampleOwnUser.content⟩])
    ∧ SessionHistory.entryProject sampleSessionOwn.whose (Entry.stmt sampleOwnUser)
        = sessionProjectStmt sampleSessionOwn.whose sampleOwnUser :=
  session_own_statement_projection sampleSessionOwn sampleOwnUser rfl

/-- C9: after removing every non-Statement entry, `is_finished` is true iff at
least 8 Statement entries remain; with exactly 7 it is false. -/
theorem session_isFinished_iff_eight_statements (h : SessionHistory) :
    (h.isFinished = true ↔ 8 ≤ (h.content.filter Entry.isStatement).length)
    ∧ ((h.content.filter Entry.isStatement).length = 7 → h.isFinished = false) := by
  constructor
  · simp [SessionHistory.isFinished, SessionHistory.cleanContent]
  · intro h7
    simp [SessionHistory.isFinished, SessionHistory.cleanContent, h7]

/-- Session history holding 7 statements plus one tool-call entry. -/
def sevenStatementSession : SessionHistory :=
  ⟨List.replicate 7 (Entry.stmt ⟨Role.user, "m", some "A"⟩) ++ [Entry.toolCall "t" "id" "a"],
    "A", none, none⟩

/-- Witness for C9: with exactly 7 statements after cleaning, the session is not
finished. -/
theorem session_isFinished_witness : sevenStatementSession.isFinished = false :=
  (session_isFinished_iff_eight_statements sevenStatementSession).2 (by decide)

/-- A Python value flowing through tool arguments and results. -/
inductive PyValue where
  | pstr (s : String)
  | pint (n : Int)
  | pbool (b : Bool)
  | pnone
  | plist (xs : List PyValue)
  | pdict (xs : List (String × PyValue))

/-- One response unit produced by `OpenAILLM.chat_with_history_tools`
(src/agent_template/_type/llm_responce.py, class LLMResponse; the `return_history`
field is modelled by explicit history threading in the loop below). -/
structure LLMResponse where
  content : String
  isToolCall : Bool
  toolName : Option String := none
  toolId : Option String := none
  toolArgs : Option (List (String × PyValue)) := none
  rawArguments : String := ""

/-- Behaviour of `Agent._execute_tool` on a tool request: given the requested
tool name and parsed arguments it either returns the serialized textual result or
raises (modelled as `Except.error`). -/
def ToolExec : Type :=
  Option String → Option (List (String × PyValue)) → Except String String

/-- The textual error produced in `Agent._execute_llm_loop` when tool execution
raises an exception. -/
def toolErrorText (name : Option String) (e : String) : String :=
  "Exception occurred during tool (" ++ pyStrOfOptStr name ++ ") execution: " ++ e

/-- The text folded back into history for one tool request: the tool result on
success, the caught-exception text otherwise. -/
def toolResText (te : ToolExec) (r : LLMResponse) : String :=
  match te r.toolName r.toolArgs with
  | Except.ok s => s
  | Except.error e => toolErrorText r.toolName e

/-- `OpenAILLM.set_tool_result`: append a function-call-output record correlated
to the originating tool-invocation id. -/
def setToolResult (hist : List Entry) (toolName toolId : Option String)
    (result : String) : List Entry :=
  hist ++ [Entry.toolOutput toolId toolName result]

/-- The history entry appended by `OpenAILLM.chat_with_history_tools` for one
response unit: the raw function-call item for a tool request, an assistant
statement otherwise. -/
def gatewayEntry (r : LLMResponse) : Entry :=
  if r.isToolCall then
    Entry.toolCall (pyStrOfOptStr r.toolName) (pyStrOfOptStr r.toolId) r.rawArguments
  else
    Entry.stmt ⟨Role.assistant, r.content, none⟩

/-- Entries appended to the history by one Model Gateway call, in unit order. -/
def batchEntries (batch : List LLMResponse) : List Entry :=
  batch.map gatewayEntry

/-- The inner for-loop of `Agent._execute_llm_loop` over one response batch:
the first non-tool unit ends the loop with its text (`Sum.inl`), every tool unit
before it is dispatched and its textual result appended; a batch of only tool
units yields the updated history (`Sum.inr`) and the loop re-enters the model
call. -/
def processBatch (te : ToolExec) :
    List LLMResponse → List Entry → (String × List Entry) ⊕ List Entry
  | [], hist => Sum.inr hist
  | r :: rest, hist =>
    if r.isToolCall = false then
      Sum.inl (r.content, hist)
    else
      processBatch te rest (setToolResult hist r.toolName r.toolId (toolResText te r))

/-- The while-loop of `Agent._execute_llm_loop`, driven by a Model Gateway stub
`gw` mapping the call index to the returned batch; fuel bounds the number of
Gateway calls, `n` is the index of the next call. Returns the final answer, the
total number of Gateway calls made, and the final history. -/
def execLoop (te : ToolExec) (gw : Nat → List LLMResponse) :
    Nat → Nat → List Entry → Option (String × Nat × List Entry)
  | 0, _, _ => none
  | Nat.succ fuel, n, hist =>
    match processBatch te (gw n) (hist ++ batchEntries (gw n)) with
    | Sum.inl (ans, h2) => some (ans, n + 1, h2)
    | Sum.inr h2 => execLoop te gw fuel (n + 1) h2

/-- Tool-result entries appended for a run of dispatched tool units, in order. -/
def toolResultEntries (te : ToolExec) (pre : List LLMResponse) : List Entry :=
  pre.map (fun r => Entry.toolOutput r.toolId r.toolName (toolResText te r))

theorem processBatch_first_nontool (te : ToolExec) (pre : List LLMResponse)
    (u : LLMResponse) (post : List LLMResponse) (hist : List Entry)
    (hpre : ∀ r ∈ pre, r.isToolCall = true) (hu : u.isToolCall = false) :
    processBatch te (pre ++ u :: post) hist
      = Sum.inl (u.content, hist ++ toolResultEntries te pre) := by
  induction pre generalizing hist with
  | nil => simp [processBatch, hu, toolResultEntries]
  | cons r rest ih =>
      have hr : r.isToolCall = true := hpre r (List.mem_cons_self _ _)
      have hrest : ∀ x ∈ rest, x.isToolCall = true :=
        fun x hx => hpre x (List.mem_cons_of_mem _ hx)
      simp only [List.cons_append, processBatch, hr]
      rw [if_neg (by simp [hr])]
      simp only [List.append_eq]
      rw [ih _ hrest]
      simp [setToolResult, toolResultEntries]

/-- C1: within one Gateway response batch the loop inspects units in submission
order, dispatches every tool unit before the first non-tool unit and appends its
result in order, returns the first non-tool unit's text as the final answer
after exactly this Gateway call, and discards the remaining units of the batch
(the result does not depend on `post`). -/
theorem agent_loop_stops_at_first_nontool (te : ToolExec) (gw : Nat → List LLMResponse)
    (fuel n : Nat) (hist : List Entry) (pre post : List LLMResponse) (u : LLMResponse)
    (hb : gw n = pre ++ u :: post)
    (hpre : ∀ r ∈ pre, r.isToolCall = true) (hu : u.isToolCall = false) :
    execLoop te gw (fuel + 1) n hist
      = some (u.content, n + 1,
          (hist ++ batchEntries (gw n)) ++ toolResultEntries te pre) := by
  simp only [execLoop, hb]
  rw [processBatch_first_nontool te pre u post _ hpre hu]

/-- Sample tool-request unit. -/
def sampleToolResp : LLMResponse :=
  { content := "", isToolCall := true, toolName := some "add", toolId := some "c1",
    toolArgs := some [("x", PyValue.pint 3), ("y", PyValue.pint 5)], rawArguments := "" }

/-- Sample final-answer unit. -/
def sampleTextResp : LLMResponse := { content := "done", isToolCall := false }

/-- Sample leftover tool-request unit appearing after the final answer. -/
def sampleExtraResp : LLMResponse :=
  { content := "", isToolCall := true, toolName := some "add", toolId := some "c2" }

/-- Tool executor stub that always succeeds with the text `ok`. -/
def sampleToolExecOk : ToolExec := fun _ _ => Except.ok "ok"

/-- Gateway stub returning one batch with a tool unit, then the answer, then a
discarded unit. -/
def sampleGateway : Nat → List LLMResponse :=
  fun _ => [sampleToolResp, sampleTextResp, sampleExtraResp]

/-- Witness for C1 at a concrete batch. -/
theorem agent_loop_stops_at_first_nontool_witness :
    execLoop sampleToolExecOk sampleGateway (0 + 1) 0 []
      = some (sampleTextResp.content, 0 + 1,
          ([] ++ batchEntries (sampleGateway 0))
            ++ toolResultEntries sampleToolExecOk [sampleToolResp]) :=
  agent_loop_stops_at_first_nontool sampleToolExecOk sampleGateway 0 0 []
    [sampleToolResp] [sampleExtraResp] sampleTextResp rfl (by decide) (by decide)

/-- C5: a tool-execution exception is caught and converted into a textual error
message naming the tool, appended to the history as the tool result correlated to
the originating tool-invocation id, after which the batch processing continues;
and when such a failing tool unit is the whole batch, the loop re-enters the
model call with the error text in the history — the exception never escapes. -/
theorem agent_loop_tool_exception_recovered (te : ToolExec) (r : LLMResponse)
    (e : String) (hr : r.isToolCall = true)
    (he : te r.toolName r.toolArgs = Except.error e) :
    (∀ (rest : List LLMResponse) (hist : List Entry),
      processBatch te (r :: rest) hist
        = processBatch te rest
            (hist ++ [Entry.toolOutput r.toolId r.toolName (toolErrorText r.toolName e)]))
    ∧ (∀ (gw : Nat → List LLMResponse) (fuel n : Nat) (hist : List Entry),
        gw n = [r] →
        execLoop te gw (fuel + 1) n hist
          = execLoop te gw fuel (n + 1)
              ((hist ++ batchEntries (gw n))
                ++ [Entry.toolOutput r.toolId r.toolName (toolErrorText r.toolName e)])) := by
  have hstep : ∀ (rest : List LLMResponse) (hist : List Entry),
      processBatch te (r :: rest) hist
        = processBatch te rest
            (hist ++ [Entry.toolOutput r.toolId r.toolName (toolErrorText r.toolName e)]) := by
    intro rest hist
    simp only [processBatch]
    rw [if_neg (by simp [hr])]
    simp [toolResText, he, setToolResult]
  refine ⟨hstep, ?_⟩
  intro gw fuel n hist hgw
  simp only [execLoop, hgw]
  rw [hstep [] (hist ++ batchEntries [r])]
  simp only [processBatch]

/-- Tool executor stub that always raises. -/
def sampleToolExecBoom : ToolExec := fun _ _ => Except.error "boom"

/-- Gateway stub whose every batch is the single failing tool unit. -/
def sampleGatewayToolOnly : Nat → List LLMResponse := fun _ => [sampleToolResp]

/-- Witness for C5 at a concrete failing tool executor. -/
theorem agent_loop_tool_exception_recovered_witness :
    (∀ (rest : List LLMResponse) (hist : List Entry),
      processBatch sampleToolExecBoom (sampleToolResp :: rest) hist
        = processBatch sampleToolExecBoom rest
            (hist ++ [Entry.toolOutput sampleToolResp.toolId sampleToolResp.toolName
                (toolErrorText sampleToolResp.toolName "boom")]))
    ∧ (∀ (gw : Nat → List LLMResponse) (fuel n : Nat) (hist : List Entry),
        gw n = [sampleToolResp] →
        execLoop sampleToolExecBoom gw (fuel + 1) n hist
          = execLoop sampleToolExecBoom gw fuel (n + 1)
              ((hist ++ batchEntries (gw n))
                ++ [Entry.toolOutput sampleToolResp.toolId sampleToolResp.toolName
                    (toolErrorText sampleToolResp.toolName "boom")])) :=
  agent_loop_tool_exception_recovered sampleToolExecBoom sampleToolResp "boom"
    (by decide) rfl

/-- A Python type annotation as seen by `BaseTool._analyze_type_annotation`
(src/agent_template/tool/base_tool_v2.py): basic classes, `Literal` of strings,
unions, parametrized `list`/`dict`, custom classes (a class with a name and no
typing origin), other parametrized typing constructs (carrying the rendering of
the annotation and origin used in the error message), and annotation values with
neither origin nor name (the fallback branch). `empty` stands for a missing
annotation (`inspect.Signature.empty` or a literal `None` value). -/
inductive PyAnnot where
  | empty
  | pstr
  | pint
  | pfloat
  | pbool
  | plistBare
  | pdictBare
  | pnone
  | lit (vals : List String)
  | punion (args : List PyAnnot)
  | plistOf (args : List PyAnnot)
  | pdictOf (args : List PyAnnot)
  | custom (name : String)
  | generic (reprStr : String)
  | fallbackAnn (reprStr : String)

/-- Whether an annotation argument is `type(None)`. -/
def PyAnnot.isNoneType : PyAnnot → Bool
  | PyAnnot.pnone => true
  | _ => false

/-- Whether an annotation argument is the class `str` (the dict-key check). -/
def PyAnnot.isStrType : PyAnnot → Bool
  | PyAnnot.pstr => true
  | _ => false

mutual

/-- Deterministic rendering of an annotation, standing for the Python string
interpolation of the annotation object inside error and bookkeeping messages. -/
def PyAnnot.pyRepr : PyAnnot → String
  | PyAnnot.empty => "None"
  | PyAnnot.pstr => "<class \x27str\x27>"
  | PyAnnot.pint => "<class \x27int\x27>"
  | PyAnnot.pfloat => "<class \x27float\x27>"
  | PyAnnot.pbool => "<class \x27bool\x27>"
  | PyAnnot.plistBare => "<class \x27list\x27>"
  | PyAnnot.pdictBare => "<class \x27dict\x27>"
  | PyAnnot.pnone => "<class \x27NoneType\x27>"
  | PyAnnot.lit vals =>
      "typing.Literal[" ++ String.intercalate ", "
        (vals.map (fun v => "\x27" ++ v ++ "\x27")) ++ "]"
  | PyAnnot.punion args => "typing.Union[" ++ pyReprList args ++ "]"
  | PyAnnot.plistOf args => "list[" ++ pyReprList args ++ "]"
  | PyAnnot.pdictOf args => "dict[" ++ pyReprList args ++ "]"
  | PyAnnot.custom n => n
  | PyAnnot.generic r => r
  | PyAnnot.fallbackAnn r => r

/-- Comma-separated rendering of annotation arguments. -/
def pyReprList : List PyAnnot → String
  | [] => ""
  | [a] => a.pyRepr
  | a :: rest => a.pyRepr ++ ", " ++ pyReprList rest

end

/-- The detailed type-information dictionary produced by
`BaseTool._analyze_type_annotation`: the JSON type name, an optional enum list,
the nullable flag, optional recursive `items` and `additionalProperties`
descriptors, and the `additional_info` bookkeeping string. -/
inductive TypeInfo where
  | mk (type : String) (enum : Option (List String)) (nullable : Bool)
      (items : Option TypeInfo) (addProps : Option TypeInfo) (addInfo : String)

/-- The nullable-marking applied by `BaseTool._handle_union_type` to the
descriptor of the non-None alternative of an optional type. -/
def TypeInfo.setOptional : TypeInfo → TypeInfo
  | TypeInfo.mk t en _ it ap ai => TypeInfo.mk t en true it ap ("optional_" ++ ai)

/-- Rendering of a Literal argument tuple inside `additional_info`. -/
def litTupleRepr (vals : List String) : String
  := "(" ++ String.intercalate ", " (vals.map (fun v => "\x27" ++ v ++ "\x27")) ++ ")"

/-- The recursive type classifier `BaseTool._analyze_type_annotation` together
with `_analyze_complex_type` and the `_handle_*` helpers: basic scalars map
directly, Literal maps to string plus enum, a two-alternative union with None
maps to the other alternative marked nullable, one-parameter `list` maps to
array with items, `dict` with string keys maps to object with
additionalProperties, and everything else raises `ValueError` (modelled as
`Except.error` carrying the message text). -/
def analyze : PyAnnot → Except String TypeInfo
  | PyAnnot.empty => Except.ok (TypeInfo.mk "string" none false none none "no_annotation")
  | PyAnnot.pstr => Except.ok (TypeInfo.mk "string" none false none none "basic_type_str")
  | PyAnnot.pint => Except.ok (TypeInfo.mk "integer" none false none none "basic_type_int")
  | PyAnnot.pfloat => Except.ok (TypeInfo.mk "number" none false none none "basic_type_float")
  | PyAnnot.pbool => Except.ok (TypeInfo.mk "boolean" none false none none "basic_type_bool")
  | PyAnnot.plistBare => Except.ok (TypeInfo.mk "array" none false none none "basic_type_list")
  | PyAnnot.pdictBare => Except.ok (TypeInfo.mk "object" none false none none "basic_type_dict")
  | PyAnnot.pnone => Except.error "カスタムクラス型は未サポートです: NoneType"
  | PyAnnot.lit vals =>
      Except.ok (TypeInfo.mk "string" (some vals) false none none
        ("literal_" ++ litTupleRepr vals))
  | PyAnnot.punion [a, b] =>
      if b.isNoneType then
        match analyze a with
        | Except.error e => Except.error e
        | Except.ok ti => Except.ok ti.setOptional
      else if a.isNoneType then
        match analyze b with
        | Except.error e => Except.error e
        | Except.ok ti => Except.ok ti.setOptional
      else
        Except.error ("複雑なUnion型は未サポートです: " ++ PyAnnot.pyRepr (PyAnnot.punion [a, b]))
  | PyAnnot.punion args =>
      Except.error ("複雑なUnion型は未サポートです: " ++ PyAnnot.pyRepr (PyAnnot.punion args))
  | PyAnnot.plistOf [] => Except.ok (TypeInfo.mk "array" none false none none "list_no_args")
  | PyAnnot.plistOf [a] =>
      match analyze a with
      | Except.error e => Except.error e
      | Except.ok ti =>
          Except.ok (TypeInfo.mk "array" none false (some ti) none ("list_" ++ a.pyRepr))
  | PyAnnot.plistOf args =>
      Except.error ("複雑なlist型は未サポートです: " ++ PyAnnot.pyRepr (PyAnnot.plistOf args))
  | PyAnnot.pdictOf [] => Except.ok (TypeInfo.mk "object" none false none none "dict_no_args")
  | PyAnnot.pdictOf [k, v] =>
      if k.isStrType then
        match analyze v with
        | Except.error e => Except.error e
        | Except.ok ti =>
            Except.ok (TypeInfo.mk "object" none false none (some ti)
              ("dict_" ++ k.pyRepr ++ "_" ++ v.pyRepr))
      else
        Except.error ("dict のキー型は str のみサポートです: " ++ k.pyRepr)
  | PyAnnot.pdictOf args =>
      Except.error ("複雑なdict型は未サポートです: " ++ PyAnnot.pyRepr (PyAnnot.pdictOf args))
  | PyAnnot.custom n => Except.error ("カスタムクラス型は未サポートです: " ++ n)
  | PyAnnot.generic r => Except.error ("未サポートの型です: " ++ r)
  | PyAnnot.fallbackAnn r =>
      Except.ok (TypeInfo.mk "string" none false none none ("fallback_" ++ r))

/-- The wire-shape descriptor produced by
`OpenAILLM.convert_type_info_to_schema` (src/agent_template/llm/openai_llm.py):
only the keys `type`, `enum`, `nullable`, `items`, `additionalProperties`. -/
inductive Schema where
  | mk (type : String) (enum : Option (List String)) (nullable : Bool)
      (items : Option Schema) (addProps : Option Schema)

/-- Setting the nullable key on a wire descriptor. -/
def Schema.setNullable : Schema → Schema
  | Schema.mk t en _ it ap => Schema.mk t en true it ap

/-- `OpenAILLM.convert_type_info_to_schema`: keep type, enum and nullable, and
recursively convert `items` (for arrays) and `additionalProperties` (for
objects), dropping the `additional_info` bookkeeping. -/
def convertTypeInfo : TypeInfo → Schema
  | TypeInfo.mk t en nul it ap _ =>
      Schema.mk t en nul
        (if t = "array" then
          match it with
          | some x => some (convertTypeInfo x)
          | none => none
        else none)
        (if t = "object" then
          match ap with
          | some x => some (convertTypeInfo x)
          | none => none
        else none)

/-- Whether a fallible computation raised. -/
def isErr {ε α : Type} : Except ε α → Bool
  | Except.error _ => true
  | Except.ok _ => false

/-- The exact set of annotations the classifier rejects, characterized
structurally: NoneType, custom classes, other origin-bearing typing constructs,
unions that are not exactly one alternative plus None, parametrized lists with a
parameter count other than 0 or 1, dicts with non-string keys or a parameter
count other than 0 or 2, and any optional/list/dict whose component is itself
rejected. Everything else — including bare `list`/`dict` and annotation values
with neither origin nor name — is accepted. -/
def PyAnnot.rejected : PyAnnot → Bool
  | PyAnnot.empty => false
  | PyAnnot.pstr => false
  | PyAnnot.pint => false
  | PyAnnot.pfloat => false
  | PyAnnot.pbool => false
  | PyAnnot.plistBare => false
  | PyAnnot.pdictBare => false
  | PyAnnot.pnone => true
  | PyAnnot.lit _ => false
  | PyAnnot.punion [a, b] =>
      if b.isNoneType then a.rejected
      else if a.isNoneType then b.rejected
      else true
  | PyAnnot.punion _ => true
  | PyAnnot.plistOf [] => false
  | PyAnnot.plistOf [a] => a.rejected
  | PyAnnot.plistOf _ => true
  | PyAnnot.pdictOf [] => false
  | PyAnnot.pdictOf [k, v] => if k.isStrType then v.rejected else true
  | PyAnnot.pdictOf _ => true
  | PyAnnot.custom _ => true
  | PyAnnot.generic _ => true
  | PyAnnot.fallbackAnn _ => false

theorem convertTypeInfo_setOptional (ti : TypeInfo) :
    convertTypeInfo ti.setOptional = (convertTypeInfo ti).setNullable := by
  cases ti with
  | mk t en nul it ap ai =>
      rw [TypeInfo.setOptional, convertTypeInfo.eq_def, convertTypeInfo.eq_def,
        Schema.setNullable]

theorem analyze_ok_not_noneType (t : PyAnnot) (ti : TypeInfo)
    (h : analyze t = Except.ok ti) : t.isNoneType = false := by
  cases t
  case pnone => simp [analyze] at h
  all_goals rfl

theorem rejected_eq_isErr_analyze : (t : PyAnnot) → t.rejected = isErr (analyze t)
  | PyAnnot.empty => rfl
  | PyAnnot.pstr => rfl
  | PyAnnot.pint => rfl
  | PyAnnot.pfloat => rfl
  | PyAnnot.pbool => rfl
  | PyAnnot.plistBare => rfl
  | PyAnnot.pdictBare => rfl
  | PyAnnot.pnone => rfl
  | PyAnnot.lit vals => rfl
  | PyAnnot.punion [] => rfl
  | PyAnnot.punion [a] => rfl
  | PyAnnot.punion [a, b] => by
      by_cases hb : b.isNoneType = true
      · have ih := rejected_eq_isErr_analyze a
        simp only [PyAnnot.rejected, analyze, hb, if_true]
        rw [ih]
        cases analyze a <;> simp [isErr]
      · by_cases ha : a.isNoneType = true
        · have ih := rejected_eq_isErr_analyze b
          simp only [PyAnnot.rejected, analyze, hb, ha, if_false, if_true]
          rw [ih]
          cases analyze b <;> simp [isErr]
        · simp [PyAnnot.rejected, analyze, hb, ha, isErr]
  | PyAnnot.punion (a :: b :: c :: rest) => by
      simp [PyAnnot.rejected, analyze, isErr]
  | PyAnnot.plistOf [] => rfl
  | PyAnnot.plistOf [a] => by
      have ih := rejected_eq_isErr_analyze a
      simp only [PyAnnot.rejected, analyze]
      rw [ih]
      cases analyze a <;> simp [isErr]
  | PyAnnot.plistOf (a :: b :: rest) => by
      simp [PyAnnot.rejected, analyze, isErr]
  | PyAnnot.pdictOf [] => rfl
  | PyAnnot.pdictOf [k] => by
      simp [PyAnnot.rejected, analyze, isErr]
  | PyAnnot.pdictOf [k, v] => by
      by_cases hk : k.isStrType = true
      · have ih := rejected_eq_isErr_analyze v
        simp only [PyAnnot.rejected, analyze, hk, if_true]
        rw [ih]
        cases analyze v <;> simp [isErr]
      · simp [PyAnnot.rejected, analyze, hk, isErr]
  | PyAnnot.pdictOf (a :: b :: c :: rest) => by
      simp [PyAnnot.rejected, analyze, isErr]
  | PyAnnot.custom n => rfl
  | PyAnnot.generic r => rfl
  | PyAnnot.fallbackAnn r => rfl

/-- C8: the descriptor of an optional supported type is the descriptor of the
non-None alternative marked nullable (in either argument order), the descriptor
of a homogeneous list of a supported type is an array whose items are the
element descriptor, and the wire shape of an optional list of integer is exactly
array of integer items with nullable true. -/
theorem schema_optional_and_list_descriptors :
    (∀ (t : PyAnnot) (ti : TypeInfo), analyze t = Except.ok ti →
        analyze (PyAnnot.punion [t, PyAnnot.pnone]) = Except.ok ti.setOptional
        ∧ analyze (PyAnnot.punion [PyAnnot.pnone, t]) = Except.ok ti.setOptional
        ∧ convertTypeInfo ti.setOptional = (convertTypeInfo ti).setNullable)
    ∧ (∀ (t : PyAnnot) (ti : TypeInfo), analyze t = Except.ok ti →
        analyze (PyAnnot.plistOf [t])
          = Except.ok (TypeInfo.mk "array" none false (some ti) none ("list_" ++ t.pyRepr))
        ∧ convertTypeInfo (TypeInfo.mk "array" none false (some ti) none ("list_" ++ t.pyRepr))
          = Schema.mk "array" none false (some (convertTypeInfo ti)) none)
    ∧ (analyze (PyAnnot.punion [PyAnnot.plistOf [PyAnnot.pint], PyAnnot.pnone])).map convertTypeInfo
        = Except.ok (Schema.mk "array" none true
            (some (Schema.mk "integer" none false none none)) none) := by
  refine ⟨?_, ?_, rfl⟩
  · intro t ti h
    have hnn : t.isNoneType = false := analyze_ok_not_noneType t ti h
    simp only [PyAnnot.isNoneType] at hnn
    refine ⟨?_, ?_, convertTypeInfo_setOptional ti⟩
    · simp [analyze, PyAnnot.isNoneType, h]
    · simp [analyze, PyAnnot.isNoneType, hnn, h]
  · intro t ti h
    refine ⟨?_, rfl⟩
    simp [analyze, h]

/-- Witness for C8 at the element type integer. -/
theorem schema_optional_and_list_descriptors_witness :
    (analyze (PyAnnot.punion [PyAnnot.pint, PyAnnot.pnone])
        = Except.ok (TypeInfo.mk "integer" none false none none "basic_type_int").setOptional
      ∧ analyze (PyAnnot.punion [PyAnnot.pnone, PyAnnot.pint])
        = Except.ok (TypeInfo.mk "integer" none false none none "basic_type_int").setOptional
      ∧ convertTypeInfo (TypeInfo.mk "integer" none false none none "basic_type_int").setOptional
        = (convertTypeInfo (TypeInfo.mk "integer" none false none none "basic_type_int")).setNullable) :=
  schema_optional_and_list_descriptors.1 PyAnnot.pint
    (TypeInfo.mk "integer" none false none none "basic_type_int") rfl

/-- The information extracted from a method docstring by
`BaseTool._parse_google_docstring` (modelled as already-parsed data, the parse
itself being the external `docstring_parser` library). `argDocs` maps an
argument name to its description and docstring type name. -/
structure MethodDoc where
  description : String := ""
  argDocs : List (String × String × String) := []
  returnsDescription : String := ""
  returnsTypeName : String := ""

/-- One signature parameter of a tool method: its name, resolved annotation
(the result of `hints.get(name, param.annotation)`), and its declared default,
if any. -/
structure ParamSpec where
  name : String
  annot : PyAnnot
  hasDefault : Bool := false
  default : Option PyValue := none

/-- One method found in a tool class hierarchy: its name, whether it carries the
`@tool` introspection mark (and that mark's `use_docstring` flag), its parsed
docstring, signature parameters, return annotation, and its executable
behaviour. -/
structure ToolMethod where
  name : String
  marked : Bool
  useDocstring : Bool := true
  doc : MethodDoc := {}
  params : List ParamSpec := []
  ret : PyAnnot := PyAnnot.empty
  impl : List (String × PyValue) → Except String PyValue

/-- A tool object (an instance of a `BaseTool` subclass): its class name and
the callable methods of its class hierarchy in method-resolution order,
most-specific first. -/
structure ToolObject where
  className : String
  methods : List ToolMethod

/-- `BaseTool.has_tool`: true iff some method of that exact name exists anywhere
in the class hierarchy — the `@tool` mark is not consulted. -/
def ToolObject.hasTool (t : ToolObject) (toolName : String) : Bool :=
  t.methods.any (fun m => m.name == toolName)

/-- `BaseTool.execute_tool`: look the name up on the instance (most-specific
definition first) and invoke it with the argument mapping; a missing name is a
`ValueError` naming the class and the requested name. The mark is not
consulted. -/
def ToolObject.executeTool (t : ToolObject) (toolName : String)
    (args : List (String × PyValue)) : Except String PyValue :=
  match t.methods.find? (fun m => m.name == toolName) with
  | none =>
      Except.error ("関数 \x27" ++ toolName ++ "\x27 が " ++ t.className ++ " に見つかりません。")
  | some m => m.impl args

/-- Description of one argument from the parsed docstring, empty when absent. -/
def docArgDescription (doc : MethodDoc) (argName : String) : String :=
  match doc.argDocs.find? (fun p => p.1 == argName) with
  | some p => p.2.1
  | none => ""

/-- Docstring type name of one argument, empty when absent. -/
def docArgTypeName (doc : MethodDoc) (argName : String) : String :=
  match doc.argDocs.find? (fun p => p.1 == argName) with
  | some p => p.2.2
  | none => ""

/-- One argument entry of a compiled capability
(`BaseTool._spec_from_fn`, `args_info`). -/
structure ArgInfo where
  name : String
  typeInfo : TypeInfo
  required : Bool
  description : String
  docstringType : String
  default : Option PyValue

/-- The return-value entry of a compiled capability. -/
structure ReturnInfo where
  typeInfo : TypeInfo
  description : String
  docstringType : String

/-- One compiled capability as returned by `BaseTool.get_tool_information`. -/
structure ToolSpec where
  name : String
  description : String
  args : List ArgInfo
  returns : ReturnInfo

/-- The parameter loop of `BaseTool._spec_from_fn`: `self`/`cls` are skipped,
each remaining parameter's annotation is classified, an unsupported annotation
raises naming the parameter, `required` holds iff there is no default. -/
def buildArgs (doc : MethodDoc) : List ParamSpec → Except String (List ArgInfo)
  | [] => Except.ok []
  | p :: rest =>
    if p.name == "self" || p.name == "cls" then
      buildArgs doc rest
    else
      match analyze p.annot with
      | Except.error e =>
          Except.error ("引数 \x27" ++ p.name ++ "\x27 の型が未サポートです: " ++ e)
      | Except.ok ti =>
          match buildArgs doc rest with
          | Except.error e => Except.error e
          | Except.ok others =>
              Except.ok (⟨p.name, ti, !p.hasDefault, docArgDescription doc p.name,
                docArgTypeName doc p.name,
                if p.hasDefault then p.default else none⟩ :: others)

/-- `BaseTool._spec_from_fn`: build the argument list, then classify the return
annotation (an unsupported return raises with its own message), then assemble
the capability record. -/
def specFromFn (m : ToolMethod) : Except String ToolSpec :=
  match buildArgs m.doc m.params with
  | Except.error e => Except.error e
  | Except.ok args =>
    match analyze m.ret with
    | Except.error e => Except.error ("戻り値の型が未サポートです: " ++ e)
    | Except.ok rti =>
        Except.ok ⟨m.name, m.doc.description, args,
          ⟨rti, m.doc.returnsDescription, m.doc.returnsTypeName⟩⟩

/-- The wrapper message raised by `BaseTool.get_tool_information` when compiling
one marked method fails. -/
def unsupportedMsg (funcName innerMsg : String) : String :=
  "関数 \x27" ++ funcName ++ "\x27 で未サポート型が検出されました: " ++ innerMsg

/-- The collection loop of `BaseTool.get_tool_information` over the class
hierarchy: compile every `@tool`-marked method, re-raising the first failure
wrapped with the function name. -/
def collectSpecs : List ToolMethod → Except String (List ToolSpec)
  | [] => Except.ok []
  | m :: rest =>
    if m.marked then
      match specFromFn m with
      | Except.error e => Except.error (unsupportedMsg m.name e)
      | Except.ok s =>
          match collectSpecs rest with
          | Except.error e => Except.error e
          | Except.ok ss => Except.ok (s :: ss)
    else
      collectSpecs rest

/-- `BaseTool.get_tool_information`: collect the marked capabilities; an empty
result is itself an error naming the class. -/
def ToolObject.getToolInformation (t : ToolObject) : Except String (List ToolSpec) :=
  match collectSpecs t.methods with
  | Except.error e => Except.error e
  | Except.ok [] => Except.error (t.className ++ " にツール関数が見つかりません。")
  | Except.ok ts => Except.ok ts

theorem collectSpecs_error_of_failing_marked (l : List ToolMethod) (m : ToolMethod)
    (hm : m ∈ l) (hmk : m.marked = true) (e : String)
    (hf : specFromFn m = Except.error e) :
    ∃ m2 e2, m2 ∈ l ∧ m2.marked = true ∧ specFromFn m2 = Except.error e2
      ∧ collectSpecs l = Except.error (unsupportedMsg m2.name e2) := by
  induction l with
  | nil => cases hm
  | cons m0 rest ih =>
      by_cases hmk0 : m0.marked = true
      · cases hs : specFromFn m0 with
        | error e0 =>
            exact ⟨m0, e0, List.mem_cons_self _ _, hmk0, hs, by
              simp [collectSpecs, hmk0, hs]⟩
        | ok s0 =>
            have hmr : m ∈ rest := by
              cases hm with
              | head => rw [hs] at hf; cases hf
              | tail _ h => exact h
            obtain ⟨m2, e2, hm2, hmk2, hf2, hc2⟩ := ih hmr
            refine ⟨m2, e2, List.mem_cons_of_mem _ hm2, hmk2, hf2, ?_⟩
            simp [collectSpecs, hmk0, hs, hc2]
      · have hmr : m ∈ rest := by
          cases hm with
          | head => exact absurd hmk hmk0
          | tail _ h => exact h
        obtain ⟨m2, e2, hm2, hmk2, hf2, hc2⟩ := ih hmr
        refine ⟨m2, e2, List.mem_cons_of_mem _ hm2, hmk2, hf2, ?_⟩
        simp [collectSpecs, hmk0, hc2]

theorem buildArgs_isErr_of_param_rejected (doc : MethodDoc) (params : List ParamSpec)
    (p : ParamSpec) (hp : p ∈ params)
    (hskip : (p.name == "self" || p.name == "cls") = false)
    (hrej : p.annot.rejected = true) :
    isErr (buildArgs doc params) = true := by
  induction params with
  | nil => cases hp
  | cons p0 rest ih =>
      by_cases h0 : (p0.name == "self" || p0.name == "cls") = true
      · have hpr : p ∈ rest := by
          cases hp with
          | head => rw [hskip] at h0; cases h0
          | tail _ h => exact h
        simpa [buildArgs, h0] using ih hpr
      · have h0f : (p0.name == "self" || p0.name == "cls") = false :=
          Bool.eq_false_iff.mpr h0
        cases ha : analyze p0.annot with
        | error e => simp [buildArgs, h0f, ha, isErr]
        | ok ti =>
            have hp0 : p0.annot.rejected = false := by
              have hr := rejected_eq_isErr_analyze p0.annot
              rw [ha] at hr
              simpa [isErr] using hr
            have hpr : p ∈ rest := by
              cases hp with
              | head => rw [hrej] at hp0; cases hp0
              | tail _ h => exact h
            have hrest := ih hpr
            cases hb : buildArgs doc rest with
            | error e2 => simp [buildArgs, h0f, ha, hb, isErr]
            | ok others => rw [hb] at hrest; simp [isErr] at hrest

theorem specFromFn_isErr_of_rejected (m : ToolMethod)
    (h : (∃ p, p ∈ m.params ∧ (p.name == "self" || p.name == "cls") = false
          ∧ p.annot.rejected = true)
        ∨ m.ret.rejected = true) :
    isErr (specFromFn m) = true := by
  cases h with
  | inl hp =>
      obtain ⟨p, hpm, hskip, hrej⟩ := hp
      have hb := buildArgs_isErr_of_param_rejected m.doc m.params p hpm hskip hrej
      cases hba : buildArgs m.doc m.params with
      | error e => simp [specFromFn, hba, isErr]
      | ok args => rw [hba] at hb; simp [isErr] at hb
  | inr hr =>
      cases hba : buildArgs m.doc m.params with
      | error e => simp [specFromFn, hba, isErr]
      | ok args =>
          have hchar := rejected_eq_isErr_analyze m.ret
          rw [hr] at hchar
          cases hra : analyze m.ret with
          | error e => simp [specFromFn, hba, hra, isErr]
          | ok rti => rw [hra] at hchar; simp [isErr] at hchar

/-- C2 amended: the classifier rejects exactly the `rejected` annotations
(NoneType, custom classes, origin-bearing typing constructs, malformed unions,
lists and dicts of wrong arity or non-string keys, and supported containers with
a rejected component); if any `@tool`-marked method has a non-`self`/`cls`
parameter or return annotation in that set, `get_tool_information` raises an
error wrapping a failing function's name around the inner message and no
capability list is returned for the tool object. However, bare `list` and bare
`dict` annotations compile silently to items-less array/object descriptors, and
an annotation value with neither a typing origin nor a name compiles silently to
a string descriptor — such outside-the-supported-set annotations do not raise. -/
theorem getToolInformation_rejects_and_degrades :
    (∀ t : PyAnnot, t.rejected = isErr (analyze t))
    ∧ (∀ (tool : ToolObject) (m : ToolMethod), m ∈ tool.methods → m.marked = true →
        ((∃ p, p ∈ m.params ∧ (p.name == "self" || p.name == "cls") = false
            ∧ p.annot.rejected = true)
          ∨ m.ret.rejected = true) →
        ∃ m2 e2, m2 ∈ tool.methods ∧ m2.marked = true ∧ specFromFn m2 = Except.error e2
          ∧ tool.getToolInformation = Except.error (unsupportedMsg m2.name e2))
    ∧ analyze PyAnnot.plistBare
        = Except.ok (TypeInfo.mk "array" none false none none "basic_type_list")
    ∧ analyze PyAnnot.pdictBare
        = Except.ok (TypeInfo.mk "object" none false none none "basic_type_dict")
    ∧ ∀ r, analyze (PyAnnot.fallbackAnn r)
        = Except.ok (TypeInfo.mk "string" none false none none ("fallback_" ++ r)) := by
  refine ⟨rejected_eq_isErr_analyze, ?_, rfl, rfl, fun r => rfl⟩
  intro tool m hm hmk hrej
  have hie := specFromFn_isErr_of_rejected m hrej
  cases hsf : specFromFn m with
  | ok s => rw [hsf] at hie; simp [isErr] at hie
  | error e =>
      obtain ⟨m2, e2, hm2, hmk2, hf2, hc2⟩ :=
        collectSpecs_error_of_failing_marked tool.methods m hm hmk e hsf
      exact ⟨m2, e2, hm2, hmk2, hf2, by simp [ToolObject.getToolInformation, hc2]⟩

/-- A marked method whose parameter `item` has a custom class annotation. -/
def badMethod : ToolMethod :=
  { name := "process_item", marked := true,
    params := [⟨"self", PyAnnot.empty, false, none⟩,
      ⟨"item", PyAnnot.custom "Item", false, none⟩],
    ret := PyAnnot.pstr,
    impl := fun _ => Except.ok PyValue.pnone }

/-- A tool object with one well-typed marked method and one ill-typed marked
method. -/
def addImpl : List (String × PyValue) → Except String PyValue := fun args =>
  match args.lookup "x", args.lookup "y" with
  | some (PyValue.pint a), some (PyValue.pint b) => Except.ok (PyValue.pint (a + b))
  | _, _ => Except.error "TypeError: add() got unexpected arguments"

/-- The marked `add` method of the example tool: `add(x, y) = x + y`. -/
def addMethod : ToolMethod :=
  { name := "add", marked := true,
    doc := { description := "2つの整数を加算します。"
             argDocs := [("x", "加算する最初の整数", "int"), ("y", "加算する2番目の整数", "int")]
             returnsDescription := "加算結果"
             returnsTypeName := "int" },
    params := [⟨"self", PyAnnot.empty, false, none⟩,
      ⟨"x", PyAnnot.pint, false, none⟩, ⟨"y", PyAnnot.pint, false, none⟩],
    ret := PyAnnot.pint,
    impl := addImpl }

/-- Tool object whose marked methods are the good `add` and the ill-typed
`process_item`. -/
def badTool : ToolObject := ⟨"BadTool", [addMethod, badMethod]⟩

/-- Witness for C2 amended: the rejected custom-class parameter makes
`get_tool_information` fail for the whole tool object, naming the function. -/
theorem getToolInformation_rejects_and_degrades_witness :
    ∃ m2 e2, m2 ∈ badTool.methods ∧ m2.marked = true ∧ specFromFn m2 = Except.error e2
      ∧ badTool.getToolInformation = Except.error (unsupportedMsg m2.name e2) :=
  getToolInformation_rejects_and_degrades.2.1 badTool badMethod
    (List.mem_cons_of_mem _ (List.mem_cons_self _ _)) rfl
    (Or.inl ⟨⟨"item", PyAnnot.custom "Item", false, none⟩,
      List.mem_cons_of_mem _ (List.mem_cons_self _ _), rfl, rfl⟩)

/-- A marked method with a bare `list` parameter (no element type) and a
parameter whose annotation value has neither typing origin nor name (as happens
for an unresolvable string annotation when `_get_type_hints_safe` returns an
empty dict). -/
def degradedMethod : ToolMethod :=
  { name := "collect", marked := true,
    params := [⟨"self", PyAnnot.empty, false, none⟩,
      ⟨"items", PyAnnot.plistBare, false, none⟩,
      ⟨"blob", PyAnnot.fallbackAnn "Blob", false, none⟩],
    ret := PyAnnot.pstr,
    impl := fun _ => Except.ok (PyValue.pstr "") }

/-- Tool object whose single marked capability has the two degraded-annotation
parameters. -/
def degradedTool : ToolObject := ⟨"DegradedTool", [degradedMethod]⟩

/-- The complete schema the compiler returns for that tool object. -/
def degradedSpec : ToolSpec :=
  ⟨"collect", "",
    [⟨"items", TypeInfo.mk "array" none false none none "basic_type_list",
        true, "", "", none⟩,
     ⟨"blob", TypeInfo.mk "string" none false none none "fallback_Blob",
        true, "", "", none⟩],
    ⟨TypeInfo.mk "string" none false none none "basic_type_str", "", ""⟩⟩

/-- C2 counterexample: a tool whose marked capability has a bare `list`
parameter (not a homogeneous list of a supported type) and a no-origin no-name
annotation — both outside the claimed supported set — compiles without any
error: `get_tool_information` returns a complete schema whose descriptors are
the degraded items-less array and the string fallback, refuting the claim that
any unsupported annotation raises and that no schema is returned. -/
theorem getToolInformation_bare_list_degraded_schema :
    degradedTool.getToolInformation = Except.ok [degradedSpec]
    ∧ ¬ ∃ msg, degradedTool.getToolInformation = Except.error msg := by
  refine ⟨rfl, ?_⟩
  rintro ⟨msg, h⟩
  rw [show degradedTool.getToolInformation = Except.ok [degradedSpec] from rfl] at h
  simp at h

/-- The example tool `MyToolV2` restricted to its `add` capability. -/
def myToolV2 : ToolObject := ⟨"MyToolV2", [addMethod]⟩

/-- C6: dispatching `add` with `x = 3`, `y = 5` returns `8`; dispatching a name
for which no method exists fails with a not-found error naming the tool class
and the requested capability — for the concrete example and for every tool
object and missing name. -/
theorem executeTool_dispatch_and_not_found :
    myToolV2.executeTool "add" [("x", PyValue.pint 3), ("y", PyValue.pint 5)]
        = Except.ok (PyValue.pint 8)
    ∧ myToolV2.executeTool "missing" []
        = Except.error ("関数 \x27missing\x27 が MyToolV2 に見つかりません。")
    ∧ ∀ (t : ToolObject) (nm : String) (args : List (String × PyValue)),
        t.methods.find? (fun m => m.name == nm) = none →
        t.executeTool nm args
          = Except.error ("関数 \x27" ++ nm ++ "\x27 が " ++ t.className ++ " に見つかりません。") := by
  refine ⟨rfl, rfl, ?_⟩
  intro t nm args hfind
  simp [ToolObject.executeTool, hfind]

/-- Witness for C6: the universal not-found clause applied to the concrete
example tool. -/
theorem executeTool_dispatch_and_not_found_witness :
    myToolV2.executeTool "absent" []
      = Except.error ("関数 \x27absent\x27 が " ++ myToolV2.className ++ " に見つかりません。") :=
  executeTool_dispatch_and_not_found.2.2 myToolV2 "absent" [] rfl

theorem specFromFn_name (m : ToolMethod) (s : ToolSpec)
    (h : specFromFn m = Except.ok s) : s.name = m.name := by
  unfold specFromFn at h
  cases hb : buildArgs m.doc m.params with
  | error e => rw [hb] at h; cases h
  | ok args =>
      rw [hb] at h
      cases hr : analyze m.ret with
      | error e => rw [hr] at h; cases h
      | ok rti => rw [hr] at h; cases h; rfl

theorem collectSpecs_specs_from_marked (l : List ToolMethod) (specs : List ToolSpec)
    (s : ToolSpec) (hc : collectSpecs l = Except.ok specs) (hs : s ∈ specs) :
    ∃ mm, mm ∈ l ∧ mm.marked = true ∧ s.name = mm.name := by
  induction l generalizing specs with
  | nil =>
      simp [collectSpecs] at hc
      subst hc
      cases hs
  | cons m0 rest ih =>
      by_cases hmk0 : m0.marked = true
      · cases hsp : specFromFn m0 with
        | error e0 => simp [collectSpecs, hmk0, hsp] at hc
        | ok s0 =>
            cases hrest : collectSpecs rest with
            | error e => simp [collectSpecs, hmk0, hsp, hrest] at hc
            | ok ss =>
                simp [collectSpecs, hmk0, hsp, hrest] at hc
                subst hc
                cases hs with
                | head =>
                    exact ⟨m0, List.mem_cons_self _ _, hmk0, specFromFn_name m0 s hsp⟩
                | tail _ htl =>
                    obtain ⟨mm, hmm, hmk, hnm⟩ := ih ss hrest htl
                    exact ⟨mm, List.mem_cons_of_mem _ hmm, hmk, hnm⟩
      · simp only [collectSpecs, hmk0, if_neg] at hc
        obtain ⟨mm, hmm, hmk, hnm⟩ := ih specs (by simpa using hc) hs
        exact ⟨mm, List.mem_cons_of_mem _ hmm, hmk, hnm⟩

theorem getToolInformation_ok_collectSpecs (t : ToolObject) (specs : List ToolSpec)
    (h : t.getToolInformation = Except.ok specs) :
    collectSpecs t.methods = Except.ok specs := by
  unfold ToolObject.getToolInformation at h
  cases hc : collectSpecs t.methods with
  | error e => rw [hc] at h; cases h
  | ok ts =>
      rw [hc] at h
      cases ts with
      | nil => cases h
      | cons a l => cases h; rfl

/-- C10: every method name present anywhere in a tool class hierarchy is
reported by `has_tool` and dispatched by `execute_tool` to the most-specific
method of that name, regardless of the `@tool` marker; the marker restricts
only the compiled schema, whose every capability comes from a marked method. -/
theorem dispatch_ignores_tool_marker (t : ToolObject) (m : ToolMethod)
    (hm : m ∈ t.methods) :
    t.hasTool m.name = true
    ∧ (∃ m2, t.methods.find? (fun x => x.name == m.name) = some m2
        ∧ m2 ∈ t.methods ∧ m2.name = m.name
        ∧ ∀ args, t.executeTool m.name args = m2.impl args)
    ∧ (∀ specs s, t.getToolInformation = Except.ok specs → s ∈ specs →
        ∃ mm, mm ∈ t.methods ∧ mm.marked = true ∧ s.name = mm.name) := by
  refine ⟨?_, ?_, ?_⟩
  · exact List.any_eq_true.mpr ⟨m, hm, by simp⟩
  · have hsome : (t.methods.find? (fun x => x.name == m.name)).isSome :=
      List.find?_isSome.mpr ⟨m, hm, by simp⟩
    obtain ⟨m2, heq⟩ := Option.isSome_iff_exists.mp hsome
    have hp := List.find?_some heq
    refine ⟨m2, heq, List.mem_of_find?_eq_some heq, by simpa using hp, ?_⟩
    intro args
    simp [ToolObject.executeTool, heq]
  · intro specs s hok hs
    exact collectSpecs_specs_from_marked t.methods specs s
      (getToolInformation_ok_collectSpecs t specs hok) hs

/-- An unmarked helper method on the same tool object. -/
def helperMethod : ToolMethod :=
  { name := "helper_upper", marked := false,
    params := [⟨"self", PyAnnot.empty, false, none⟩,
      ⟨"text", PyAnnot.pstr, false, none⟩],
    ret := PyAnnot.pstr,
    impl := fun _ => Except.ok (PyValue.pstr "H") }

/-- Tool object with a marked `add` and an unmarked helper method. -/
def mixedTool : ToolObject := ⟨"MixedTool", [addMethod, helperMethod]⟩

/-- Witness for C10 at the unmarked helper method of a concrete tool object. -/
theorem dispatch_ignores_tool_marker_witness :
    mixedTool.hasTool helperMethod.name = true
    ∧ (∃ m2, mixedTool.methods.find? (fun x => x.name == helperMethod.name) = some m2
        ∧ m2 ∈ mixedTool.methods ∧ m2.name = helperMethod.name
        ∧ ∀ args, mixedTool.executeTool helperMethod.name args = m2.impl args)
    ∧ (∀ specs s, mixedTool.getToolInformation = Except.ok specs → s ∈ specs →
        ∃ mm, mm ∈ mixedTool.methods ∧ mm.marked = true ∧ s.name = mm.name) :=
  dispatch_ignores_tool_marker mixedTool helperMethod
    (List.mem_cons_of_mem _ (List.mem_cons_self _ _))

/-- The provider error classes that can escape one OpenAI API call
(src/agent_template/llm/openai_llm.py). `timeout` stands for the provider SDK
timeout error, which is a subclass of its connection error; `serverError` stands
for the provider 5xx status error class, which is not a subclass of the
rate-limit or connection classes. -/
inductive ProviderError where
  | rateLimit (msg : String)
  | connection (msg : String)
  | timeout (msg : String)
  | serverError (msg : String)
  | other (msg : String)
deriving DecidableEq

/-- Python `str` of the provider error, the text carried into `RetryableError`. -/
def ProviderError.msg : ProviderError → String
  | ProviderError.rateLimit m => m
  | ProviderError.connection m => m
  | ProviderError.timeout m => m
  | ProviderError.serverError m => m
  | ProviderError.other m => m

/-- Which provider errors are caught by the
`except (RateLimitError, APIConnectionError)` clause in
`chat_with_history_tools` (the timeout class is a connection subclass and is
caught; the server-error class is not). -/
def ProviderError.caughtAsRetryable : ProviderError → Bool
  | ProviderError.rateLimit _ => true
  | ProviderError.connection _ => true
  | ProviderError.timeout _ => true
  | _ => false

/-- What one attempt of the decorated body can raise: the `RetryableError`
wrapper produced by the except clause, or the original provider error escaping
unhandled. -/
inductive CallError where
  | retryable (msg : String)
  | unhandled (e : ProviderError)
deriving DecidableEq

/-- The predicate `retry_if_exception_type(RetryableError)` of the tenacity
decorator. -/
def CallError.isRetryable : CallError → Bool
  | CallError.retryable _ => true
  | _ => false

/-- One attempt of the decorated body against a Gateway stub `api` mapping the
attempt number to its outcome: a caught provider error is re-raised as
`RetryableError` carrying its message, anything else escapes unchanged. -/
def attemptOnce (api : Nat → Except ProviderError String) (attempt : Nat) :
    Except CallError String :=
  match api attempt with
  | Except.ok v => Except.ok v
  | Except.error e =>
      if e.caughtAsRetryable then Except.error (CallError.retryable e.msg)
      else Except.error (CallError.unhandled e)

/-- The `stop_after_attempt` bound of the tenacity decorator. -/
def retryStopAfterAttempt : Nat := 3

/-- The `wait_fixed` backoff of the tenacity decorator, in seconds. -/
def retryWaitSeconds : Nat := 1

/-- The tenacity retry driver with `reraise=True`: run attempts while the
raised error satisfies the retry predicate and attempts remain, then reraise
the last error; a non-retryable error stops immediately. Returns the outcome
and the number of attempts made. -/
def retryRun (api : Nat → Except ProviderError String) :
    Nat → Nat → Except CallError String × Nat
  | remaining, attempt =>
    match attemptOnce api attempt, remaining with
    | Except.ok v, _ => (Except.ok v, attempt)
    | Except.error e, 0 => (Except.error e, attempt)
    | Except.error e, 1 => (Except.error e, attempt)
    | Except.error e, Nat.succ r =>
        if e.isRetryable then retryRun api r (attempt + 1)
        else (Except.error e, attempt)

/-- The retry-decorated model call: up to `stop_after_attempt` attempts,
starting at attempt 1. -/
def chatWithRetry (api : Nat → Except ProviderError String) :
    Except CallError String × Nat :=
  retryRun api retryStopAfterAttempt 1

/-- C7 counterexample: a Gateway stub raising a server error on every attempt is
not retried — the call makes exactly 1 attempt, not 3, and the server error
escapes unhandled. -/
theorem retry_server_error_not_retried :
    (chatWithRetry (fun _ => Except.error (ProviderError.serverError "internal"))).2 = 1
    ∧ (chatWithRetry (fun _ => Except.error (ProviderError.serverError "internal"))).1
        = Except.error (CallError.unhandled (ProviderError.serverError "internal"))
    ∧ (1 : Nat) ≠ 3 :=
  ⟨rfl, rfl, by decide⟩

/-- C7 amended: a Gateway stub raising a rate-limit, connection or timeout error
on every attempt causes exactly 3 attempts with a fixed 1-second backoff between
them and then propagates the `RetryableError` wrapper carrying the last provider
error's message; any other provider error (server errors included) propagates
unchanged after a single attempt, unretried. -/
theorem retry_policy_rateLimit_connection_timeout (api : Nat → Except ProviderError String) :
    ((∀ n, ∃ e, api n = Except.error e ∧ e.caughtAsRetryable = true) →
      ∃ e3, api 3 = Except.error e3
        ∧ chatWithRetry api = (Except.error (CallError.retryable e3.msg), 3))
    ∧ (∀ e, api 1 = Except.error e → e.caughtAsRetryable = false →
        chatWithRetry api = (Except.error (CallError.unhandled e), 1))
    ∧ retryStopAfterAttempt = 3 ∧ retryWaitSeconds = 1 := by
  refine ⟨?_, ?_, rfl, rfl⟩
  · intro h
    obtain ⟨e1, he1, hc1⟩ := h 1
    obtain ⟨e2, he2, hc2⟩ := h 2
    obtain ⟨e3, he3, hc3⟩ := h 3
    refine ⟨e3, he3, ?_⟩
    simp [chatWithRetry, retryStopAfterAttempt, retryRun, attemptOnce,
      he1, he2, he3, hc1, hc2, hc3, CallError.isRetryable]
  · intro e he hc
    simp [chatWithRetry, retryStopAfterAttempt, retryRun, attemptOnce, he, hc,
      CallError.isRetryable]

/-- Witness for the amended C7: a stub always raising a rate-limit error makes
exactly 3 attempts then propagates the wrapped error. -/
theorem retry_policy_rateLimit_witness :
    ∃ e3, (fun _ => Except.error (ProviderError.rateLimit "rate limited") :
        Nat → Except ProviderError String) 3 = Except.error e3
      ∧ chatWithRetry (fun _ => Except.error (ProviderError.rateLimit "rate limited"))
        = (Except.error (CallError.retryable e3.msg), 3) :=
  (retry_policy_rateLimit_connection_timeout
      (fun _ => Except.error (ProviderError.rateLimit "rate limited"))).1
    (fun _ => ⟨ProviderError.rateLimit "rate limited", rfl, rfl⟩)

end AgentTemplate
